import Mathlib

/- Shallow embedding of the two event-loop programs of the repository
   raw-mouse-input: `src/winapi.c` and `src/x11.c`.  Each program is a
   single `main` with one message/event loop; we embed the loop body as a
   step function on an explicit state record, with every observable side
   effect (printf lines, pointer warps, raw-input (de)registration,
   pointer grabs) recorded in an effect trace inside the state. -/

/-! ## Machine-integer helpers -/

/-- Narrowing an `int` value to a C `short` (the type of the `x`/`y`
fields of X11's `XPoint`): two's-complement wrap-around into
`[-32768, 32767]`, as gcc implements the conversion. -/
def toShort (z : ℤ) : ℤ := (z + 32768) % 65536 - 32768

/-- C conversion of a floating-point value to an integer type truncates
toward zero.  The `double` values of the program (`deltaX`, `deltaY`,
`raw_values[i]`) are modelled exactly as rationals: the only operations
the program performs on them (accumulating onto `0.0`, unary negation)
are exact in IEEE arithmetic. -/
def ratTruncToInt (q : ℚ) : ℤ := Int.tdiv q.num (q.den : ℤ)

/-- Conversion of a C `double` to a C `short`, as in
`point = (XPoint){-deltaX, -deltaY};` (src/x11.c line 85): truncation
toward zero followed by the narrowing to `short`. -/
def dblToShort (q : ℚ) : ℤ := toShort (ratTruncToInt q)

/-! ## Windows program (`src/winapi.c`) -/

/-- `RIM_TYPEMOUSE`, the `dwType` tag of a mouse raw-input payload. -/
def RIM_TYPEMOUSE : ℕ := 0

/-- The fields of the `RAWINPUT` payload that `main` reads after
`GetRawInputData` (src/winapi.c lines 67-75): the device type
`raw->header.dwType` and the relative motion fields
`raw->data.mouse.lLastX/.lLastY` (C `LONG` values). -/
structure RawMousePayload where
  dwType : ℕ
  lLastX : ℤ
  lLastY : ℤ
deriving DecidableEq

/-- The messages distinguished by the `switch (msg.message)` in
src/winapi.c lines 54-92; everything else falls to `default`. -/
inductive WinMsg where
  | wmClose
  | wmQuit
  | wmInput (p : RawMousePayload)
  | wmKeyDown
  | other
deriving DecidableEq

/-- Observable side effects of one pass of the Windows loop body:
`printf` output (kept structured; `winRenderEffect` gives the literal
line), the `RIDEV_REMOVE` re-registration, the `ClipCursor(NULL)`
release, and `SetCursorPos` (which the loop body in fact never calls;
it occurs only in the setup before the loop, src/winapi.c line 40). -/
inductive WinEffect where
  | printMotion (dx dy : ℤ)
  | printDisabled
  | registerRemove
  | clipCursorNull
  | setCursorPos (x y : ℤ)
deriving DecidableEq

/-- State of the Windows loop: the `holdMouse` and `running` flags, the
`point` variable, and the trace of effects performed so far. -/
structure WinState where
  holdMouse : Bool
  running : Bool
  point : ℤ × ℤ
  out : List WinEffect
deriving DecidableEq

/-- State at entry to the `while (running)` loop (src/winapi.c lines
46-52): `holdMouse = TRUE`, `running = TRUE`; `point` is uninitialized
but is written before every read, so its initial value is irrelevant
and modelled as `(0, 0)`. -/
def winInit : WinState :=
  { holdMouse := true, running := true, point := (0, 0), out := [] }

/-- The `switch (msg.message)` body, src/winapi.c lines 54-92.
`WM_CLOSE`/`WM_QUIT` set `running = FALSE`; `WM_INPUT` is dropped when
`holdMouse == FALSE`, when the payload is not a mouse payload, or when
both motion components are zero, and otherwise stores and prints the
payload's `lLastX`/`lLastY` unchanged; `WM_KEYDOWN` (when
`holdMouse == TRUE`) unregisters the raw-input device, releases the
cursor clip, prints the notice, and clears `holdMouse`. -/
def winHandleMsg (s : WinState) (m : WinMsg) : WinState :=
  match m with
  | .wmClose => { s with running := false }
  | .wmQuit => { s with running := false }
  | .wmInput p =>
      if s.holdMouse = false then s
      else if p.dwType ≠ RIM_TYPEMOUSE ∨ (p.lLastX = 0 ∧ p.lLastY = 0) then s
      else
        { s with point := (p.lLastX, p.lLastY),
                 out := s.out ++ [.printMotion p.lLastX p.lLastY] }
  | .wmKeyDown =>
      if s.holdMouse = false then s
      else
        { s with holdMouse := false,
                 out := s.out ++ [.registerRemove, .clipCursorNull, .printDisabled] }
  | .other => s

/-- One full iteration of the `while (running)` loop (src/winapi.c lines
52-98): if `PeekMessageA` returned a message it is dispatched through
the `switch`, and then - unconditionally - line 97 executes
`running = IsWindow(hwnd)`, overwriting whatever the `switch` left in
`running`.  `m` is the polled message (if any) and `windowValid` the
result of the `IsWindow` call of this iteration. -/
def winLoopIter (s : WinState) (m : Option WinMsg) (windowValid : Bool) : WinState :=
  let s1 := match m with
    | none => s
    | some msg => winHandleMsg s msg
  { s1 with running := windowValid }

/-- Dispatching a whole list of polled messages through the `switch`. -/
def winRun (s : WinState) (msgs : List WinMsg) : WinState :=
  List.foldl winHandleMsg s msgs

/-- Literal console line of a Windows effect, after the format strings
`"raw input: %i %i\n"` (line 76) and `"rawinput disabled\n"` (line 87). -/
def winRenderEffect : WinEffect → Option String
  | .printMotion dx dy => some ("raw input: " ++ toString dx ++ " " ++ toString dy)
  | .printDisabled => some "rawinput disabled"
  | _ => none

/-- The console lines printed so far by the Windows program. -/
def winLines (s : WinState) : List String := s.out.filterMap winRenderEffect

/-- Number of `SetCursorPos` (pointer re-warp) calls in a Windows
effect trace. -/
def winWarpCount (l : List WinEffect) : ℕ :=
  l.countP (fun e => match e with | .setCursorPos _ _ => true | _ => false)

/-! ## X11 program (`src/x11.c`) -/

/-- The fields of the `XIRawEvent` valuator data that `main` reads
(src/x11.c lines 70-83): `valuators.mask_len`, the first two bits of
`valuators.mask`, and the first two entries of `raw_values` (C
`double`s, modelled as rationals). -/
structure XIRawPayload where
  maskLen : ℕ
  mask0 : Bool
  mask1 : Bool
  rawValue0 : ℚ
  rawValue1 : ℚ
deriving DecidableEq

/-- The events distinguished by the `switch (event.type)` in src/x11.c
lines 48-110.  A `GenericEvent` whose cookie has
`evtype == XI_RawMotion` is `rawMotion`; any other `GenericEvent` is
`genericOther` (it is only freed); everything else (`Expose`, ...)
falls to `default`. -/
inductive X11Event where
  | motionNotify (x y : ℤ)
  | rawMotion (p : XIRawPayload)
  | genericOther
  | keyPress
  | other
deriving DecidableEq

/-- Observable side effects of the X11 loop body: `printf` output (kept
structured; `x11RenderEffect` gives the literal line), `XWarpPointer`
re-warps, the `XISelectEvents` re-registration with an all-zero mask,
and `XUngrabPointer`. -/
inductive X11Effect where
  | printMotion (dx dy : ℤ)
  | printDisabled
  | warpPointer (x y : ℤ)
  | xiSelectEventsEmpty
  | ungrabPointer
deriving DecidableEq

/-- State of the X11 loop: the `rawInput` flag, the `point` and
`_lastMousePoint` `XPoint` variables (pairs of C `short`s), and the
trace of effects performed so far. -/
structure X11State where
  rawInput : Bool
  point : ℤ × ℤ
  lastMousePoint : ℤ × ℤ
  out : List X11Effect
deriving DecidableEq

/-- State at entry to the `for (;;)` loop (src/x11.c lines 39-45):
`rawInput = True`; `point` and `_lastMousePoint` are uninitialized
stack variables.  `point` is written before every read, so it is
modelled as `(0, 0)`; `_lastMousePoint` is read but NEVER written by
the program, so its indeterminate initial contents are kept as a
parameter `L` (narrowed to the `short` range its fields occupy). -/
def x11Init (L : ℤ × ℤ) : X11State :=
  { rawInput := true, point := (0, 0),
    lastMousePoint := (toShort L.1, toShort L.2), out := [] }

/-- The window center used by every `XWarpPointer` call:
`(window_width / 2, window_height / 2) = (100, 100)` (src/x11.c lines
12-13, 24, 56, 86). -/
def x11Center : ℤ × ℤ := (100, 100)

/-- The `switch (event.type)` body, src/x11.c lines 48-110.
`MotionNotify` (when `rawInput`) stores
`_lastMousePoint - event.xmotion` into `point` (narrowed to `short`),
prints it, then warps the pointer to the window center.  A
`GenericEvent` of evtype `XI_RawMotion` (when `rawInput` and
`mask_len != 0`) accumulates `raw_values[0]`/`raw_values[1]` into
`deltaX`/`deltaY` gated by valuator-mask bits 0 and 1, stores the
negated deltas into `point` (truncated to `short`), warps, then
prints.  `KeyPress` (when `rawInput`) deselects XI events with an
all-zero mask, ungrabs the pointer, and prints the notice - but never
assigns `rawInput = False`. -/
def x11Step (s : X11State) (e : X11Event) : X11State :=
  match e with
  | .motionNotify mx my =>
      if s.rawInput = true then
        let px := toShort (s.lastMousePoint.1 - mx)
        let py := toShort (s.lastMousePoint.2 - my)
        { s with point := (px, py),
                 out := s.out ++ [.printMotion px py,
                                  .warpPointer x11Center.1 x11Center.2] }
      else s
  | .rawMotion p =>
      if s.rawInput = false then s
      else if p.maskLen = 0 then s
      else
        let deltaX : ℚ := if p.mask0 then p.rawValue0 else 0
        let deltaY : ℚ := if p.mask1 then p.rawValue1 else 0
        let px := dblToShort (-deltaX)
        let py := dblToShort (-deltaY)
        { s with point := (px, py),
                 out := s.out ++ [.warpPointer x11Center.1 x11Center.2,
                                  .printMotion px py] }
  | .genericOther => s
  | .keyPress =>
      if s.rawInput = false then s
      else
        { s with out := s.out ++ [.xiSelectEventsEmpty, .ungrabPointer,
                                  .printDisabled] }
  | .other => s

/-- Processing a list of delivered events through the loop body. -/
def x11Run (s : X11State) (evs : List X11Event) : X11State :=
  List.foldl x11Step s evs

/-- The guard of the X11 event loop, `for (;;)` (src/x11.c line 45):
the loop header has no condition, i.e. the guard is constantly true
and no state can make the loop exit. -/
def x11LoopGuard (_ : X11State) : Bool := true

/-- Literal console line of an X11 effect, after the format strings
`"rawinput %i %i\n"` (lines 55 and 88) and `"Raw input disabled\n"`
(line 107). -/
def x11RenderEffect : X11Effect → Option String
  | .printMotion dx dy => some ("rawinput " ++ toString dx ++ " " ++ toString dy)
  | .printDisabled => some "Raw input disabled"
  | _ => none

/-- The console lines printed so far by the X11 program. -/
def x11Lines (s : X11State) : List String := s.out.filterMap x11RenderEffect

/-- The motion deltas printed so far by the X11 program, in order. -/
def x11MotionDeltas (s : X11State) : List (ℤ × ℤ) :=
  s.out.filterMap (fun e => match e with
    | .printMotion dx dy => some (dx, dy)
    | _ => none)

/-- The X11 motion events: `MotionNotify`, and `GenericEvent` carrying
an `XI_RawMotion` cookie. -/
def x11IsMotionEvent : X11Event → Prop
  | .motionNotify _ _ => True
  | .rawMotion _ => True
  | _ => False

/-- The line shapes the X11 program can print: a motion line after the
format string `"rawinput %i %i\n"`, or the literal deactivation
notice. -/
def x11LineOk (l : String) : Prop :=
  (∃ dx dy : ℤ, l = "rawinput " ++ toString dx ++ " " ++ toString dy) ∨
  l = "Raw input disabled"

/-- The line shapes the Windows program can print: a motion line after
the format string `"raw input: %i %i\n"`, or the literal deactivation
notice. -/
def winLineOk (l : String) : Prop :=
  (∃ dx dy : ℤ, l = "raw input: " ++ toString dx ++ " " ++ toString dy) ∨
  l = "rawinput disabled"

/-! ## Helper lemmas -/

/-- Any line printed by one X11 loop-body step is either an earlier
line or one of the two admissible X11 line shapes. -/
lemma x11Step_lines_ok (s : X11State) (e : X11Event) :
    ∀ l ∈ x11Lines (x11Step s e), l ∈ x11Lines s ∨ x11LineOk l := by
  intro l hl
  cases e with
  | motionNotify mx my =>
      by_cases h : s.rawInput = true
      · simp only [x11Step, h, if_pos] at hl
        rw [x11Lines, List.filterMap_append] at hl
        rcases List.mem_append.mp hl with h1 | h2
        · exact Or.inl h1
        · simp only [List.filterMap, x11RenderEffect] at h2
          rcases List.mem_singleton.mp h2 with rfl
          exact Or.inr (Or.inl ⟨_, _, rfl⟩)
      · simp only [x11Step, h, if_neg] at hl
        exact Or.inl hl
  | rawMotion p =>
      by_cases h : s.rawInput = false
      · simp only [x11Step, h, if_pos] at hl
        exact Or.inl hl
      · by_cases h2 : p.maskLen = 0
        · simp only [x11Step, h, h2, if_neg, if_pos] at hl
          exact Or.inl hl
        · simp only [x11Step, h, h2, if_neg, Bool.true_eq_false, not_false_eq_true] at hl
          rw [x11Lines, List.filterMap_append] at hl
          rcases List.mem_append.mp hl with h1 | h3
          · exact Or.inl h1
          · simp only [List.filterMap, x11RenderEffect] at h3
            rcases List.mem_singleton.mp h3 with rfl
            exact Or.inr (Or.inl ⟨_, _, rfl⟩)
  | genericOther => exact Or.inl hl
  | keyPress =>
      by_cases h : s.rawInput = false
      · simp only [x11Step, h, if_pos] at hl
        exact Or.inl hl
      · simp only [x11Step, h, if_neg, Bool.true_eq_false, not_false_eq_true] at hl
        rw [x11Lines, List.filterMap_append] at hl
        rcases List.mem_append.mp hl with h1 | h2
        · exact Or.inl h1
        · simp only [List.filterMap, x11RenderEffect] at h2
          rcases List.mem_singleton.mp h2 with rfl
          exact Or.inr (Or.inr rfl)
  | other => exact Or.inl hl

/-- Any line printed by a whole X11 run extends an admissible trace
only with admissible line shapes. -/
lemma x11Run_lines_ok (evs : List X11Event) :
    ∀ s : X11State, (∀ l ∈ x11Lines s, x11LineOk l) →
      ∀ l ∈ x11Lines (x11Run s evs), x11LineOk l := by
  induction evs with
  | nil => exact fun s hs l hl => hs l hl
  | cons e rest ih =>
      intro s hs l hl
      refine ih (x11Step s e) (fun l2 hl2 => ?_) l hl
      rcases x11Step_lines_ok s e l2 hl2 with h | h
      · exact hs l2 h
      · exact h

/-- Any line printed by one Windows `switch` dispatch is either an
earlier line or one of the two admissible Windows line shapes. -/
lemma winHandleMsg_lines_ok (s : WinState) (m : WinMsg) :
    ∀ l ∈ winLines (winHandleMsg s m), l ∈ winLines s ∨ winLineOk l := by
  intro l hl
  cases m with
  | wmClose => exact Or.inl hl
  | wmQuit => exact Or.inl hl
  | wmInput p =>
      by_cases h : s.holdMouse = false
      · simp only [winHandleMsg, h, if_pos] at hl
        exact Or.inl hl
      · by_cases h2 : p.dwType ≠ RIM_TYPEMOUSE ∨ (p.lLastX = 0 ∧ p.lLastY = 0)
        · simp only [winHandleMsg, h, h2, if_neg, if_pos] at hl
          exact Or.inl hl
        · simp only [winHandleMsg, h, h2, if_neg, Bool.true_eq_false, not_false_eq_true] at hl
          rw [winLines, List.filterMap_append] at hl
          rcases List.mem_append.mp hl with h1 | h3
          · exact Or.inl h1
          · simp only [List.filterMap, winRenderEffect] at h3
            rcases List.mem_singleton.mp h3 with rfl
            exact Or.inr (Or.inl ⟨_, _, rfl⟩)
  | wmKeyDown =>
      by_cases h : s.holdMouse = false
      · simp only [winHandleMsg, h, if_pos] at hl
        exact Or.inl hl
      · simp only [winHandleMsg, h, if_neg, Bool.true_eq_false, not_false_eq_true] at hl
        rw [winLines, List.filterMap_append] at hl
        rcases List.mem_append.mp hl with h1 | h2
        · exact Or.inl h1
        · simp only [List.filterMap, winRenderEffect] at h2
          rcases List.mem_singleton.mp h2 with rfl
          exact Or.inr (Or.inr rfl)
  | other => exact Or.inl hl

/-- Any line printed by a whole Windows run extends an admissible trace
only with admissible line shapes. -/
lemma winRun_lines_ok (msgs : List WinMsg) :
    ∀ s : WinState, (∀ l ∈ winLines s, winLineOk l) →
      ∀ l ∈ winLines (winRun s msgs), winLineOk l := by
  induction msgs with
  | nil => exact fun s hs l hl => hs l hl
  | cons m rest ih =>
      intro s hs l hl
      refine ih (winHandleMsg s m) (fun l2 hl2 => ?_) l hl
      rcases winHandleMsg_lines_ok s m l2 hl2 with h | h
      · exact hs l2 h
      · exact h

/-- The effect trace of an accepted `XI_RawMotion` event: warp to the
window center, then print the negated (mask-gated, `short`-truncated)
raw values. -/
lemma x11_rawMotion_out_eq (s : X11State) (p : XIRawPayload)
    (h : s.rawInput = true) (h2 : p.maskLen ≠ 0) :
    x11Step s (.rawMotion p) =
      { s with
        point := (dblToShort (-(if p.mask0 then p.rawValue0 else 0)),
                  dblToShort (-(if p.mask1 then p.rawValue1 else 0))),
        out := s.out ++
          [X11Effect.warpPointer 100 100,
           X11Effect.printMotion (dblToShort (-(if p.mask0 then p.rawValue0 else 0)))
                                 (dblToShort (-(if p.mask1 then p.rawValue1 else 0)))] } := by
  simp only [x11Step, h, h2, if_neg, Bool.true_eq_false, not_false_eq_true, x11Center]

/-! ## Claim theorems -/

/-- Claim C1 (code_bug evidence).  On the Windows path a key press while
`holdMouse` is set clears the flag, and once clear no message can set it
again - in a single step or over any whole run.  On the X11 path,
however, the KeyPress handler never assigns `rawInput = False`: after a
key press delivered in the initial (enabled) state the flag is still
`true`, contradicting the claimed one-way transition to `false`. -/
theorem keyPress_oneWay_win_but_x11_flag_never_cleared :
    (∀ s : WinState, s.holdMouse = true →
        (winHandleMsg s .wmKeyDown).holdMouse = false) ∧
    (∀ (s : WinState) (m : WinMsg), s.holdMouse = false →
        (winHandleMsg s m).holdMouse = false) ∧
    (∀ (s : WinState) (msgs : List WinMsg), s.holdMouse = false →
        (winRun s msgs).holdMouse = false) ∧
    (∀ L : ℤ × ℤ, (x11Run (x11Init L) [X11Event.keyPress]).rawInput = true) := by
  refine ⟨fun s h => ?_, fun s m h => ?_, fun s msgs => ?_, fun L => rfl⟩
  · simp [winHandleMsg, h]
  · cases m <;> simp [winHandleMsg, h]
  · induction msgs generalizing s with
    | nil => exact fun h => h
    | cons m rest ih =>
        intro h
        have hm : (winHandleMsg s m).holdMouse = false := by
          cases m <;> simp [winHandleMsg, h]
        exact ih (winHandleMsg s m) hm

/-- Witness for C1 at concrete inputs. -/
theorem keyPress_oneWay_witness :
    (winHandleMsg winInit WinMsg.wmKeyDown).holdMouse = false ∧
    (winHandleMsg { winInit with holdMouse := false } WinMsg.wmQuit).holdMouse = false ∧
    (winRun { winInit with holdMouse := false }
        [WinMsg.wmInput ⟨0, 1, 2⟩, WinMsg.wmKeyDown]).holdMouse = false ∧
    (x11Run (x11Init (3, 4)) [X11Event.keyPress]).rawInput = true :=
  ⟨keyPress_oneWay_win_but_x11_flag_never_cleared.1 winInit rfl,
   keyPress_oneWay_win_but_x11_flag_never_cleared.2.1 _ WinMsg.wmQuit rfl,
   keyPress_oneWay_win_but_x11_flag_never_cleared.2.2.1 _ _ rfl,
   keyPress_oneWay_win_but_x11_flag_never_cleared.2.2.2 (3, 4)⟩

/-- Claim C2 (confirmed).  A motion event delivered while the capture
flag is false is a complete no-op on both paths: the Windows `WM_INPUT`
arm breaks before reading the payload, and the X11 `MotionNotify` and
`XI_RawMotion` arms print nothing and change no state. -/
theorem motion_gating_when_disabled :
    (∀ (s : WinState) (p : RawMousePayload), s.holdMouse = false →
        winHandleMsg s (.wmInput p) = s) ∧
    (∀ (s : X11State) (e : X11Event), s.rawInput = false → x11IsMotionEvent e →
        x11Step s e = s) := by
  refine ⟨fun s p h => ?_, fun s e h hm => ?_⟩
  · simp [winHandleMsg, h]
  · cases e <;> simp [x11IsMotionEvent] at hm <;> simp [x11Step, h]

/-- Witness for C2 at concrete disabled states. -/
theorem motion_gating_witness :
    winHandleMsg { winInit with holdMouse := false } (WinMsg.wmInput ⟨0, 7, 8⟩) =
      { winInit with holdMouse := false } ∧
    x11Step { x11Init (0, 0) with rawInput := false } (X11Event.motionNotify 5 6) =
      { x11Init (0, 0) with rawInput := false } ∧
    x11Step { x11Init (0, 0) with rawInput := false }
        (X11Event.rawMotion ⟨4, true, true, 1, 2⟩) =
      { x11Init (0, 0) with rawInput := false } :=
  ⟨motion_gating_when_disabled.1 _ _ rfl,
   motion_gating_when_disabled.2 _ _ rfl trivial,
   motion_gating_when_disabled.2 _ _ rfl trivial⟩

/-- Claim C3 (code_bug evidence).  `_lastMousePoint` is never written by
src/x11.c, so the MotionNotify arm subtracts the stale (uninitialized)
initial contents `L` from every absolute position: after absolute
samples (10,10), (15,12), (20,20), the printed deltas are
`(L - sample)` for the fixed `L`, and for NO value of `L` are the
deltas of the two successive pairs the claimed previous-minus-current
values `(-5,-2)` and `(-5,-8)`. -/
theorem x11_motionNotify_uses_stale_previous_point :
    ∀ L : ℤ × ℤ,
      x11MotionDeltas (x11Run (x11Init L)
          [X11Event.motionNotify 10 10, X11Event.motionNotify 15 12,
           X11Event.motionNotify 20 20]) =
        [(toShort (toShort L.1 - 10), toShort (toShort L.2 - 10)),
         (toShort (toShort L.1 - 15), toShort (toShort L.2 - 12)),
         (toShort (toShort L.1 - 20), toShort (toShort L.2 - 20))] ∧
      ¬ ∃ d : ℤ × ℤ,
          x11MotionDeltas (x11Run (x11Init L)
              [X11Event.motionNotify 10 10, X11Event.motionNotify 15 12,
               X11Event.motionNotify 20 20]) =
            [d, (-5, -2), (-5, -8)] := by
  intro L
  have heval : x11MotionDeltas (x11Run (x11Init L)
      [X11Event.motionNotify 10 10, X11Event.motionNotify 15 12,
       X11Event.motionNotify 20 20]) =
      [(toShort (toShort L.1 - 10), toShort (toShort L.2 - 10)),
       (toShort (toShort L.1 - 15), toShort (toShort L.2 - 12)),
       (toShort (toShort L.1 - 20), toShort (toShort L.2 - 20))] := rfl
  refine ⟨heval, ?_⟩
  rintro ⟨d, hd⟩
  rw [heval] at hd
  simp only [List.cons.injEq, Prod.mk.injEq, List.cons_ne_nil, and_true] at hd
  obtain ⟨-, ⟨h2x, -⟩, h3x, -⟩ := hd
  unfold toShort at h2x h3x
  omega

/-- Claim C4 (confirmed).  An accepted `WM_INPUT` mouse payload is
printed and stored exactly as its `lLastX`/`lLastY` fields, with no
inversion. -/
theorem win_delta_passthrough :
    ∀ (s : WinState) (p : RawMousePayload), s.holdMouse = true →
      p.dwType = RIM_TYPEMOUSE → ¬(p.lLastX = 0 ∧ p.lLastY = 0) →
      (winHandleMsg s (.wmInput p)).out = s.out ++ [.printMotion p.lLastX p.lLastY] ∧
      (winHandleMsg s (.wmInput p)).point = (p.lLastX, p.lLastY) := by
  intro s p h h1 h2
  constructor <;> simp [winHandleMsg, h, h1, h2]

/-- Witness for C4: the payload `lLastX=7, lLastY=-3` yields delta
`(7,-3)`. -/
theorem win_delta_passthrough_witness :
    (winHandleMsg winInit (WinMsg.wmInput ⟨0, 7, -3⟩)).out =
      [WinEffect.printMotion 7 (-3)] ∧
    (winHandleMsg winInit (WinMsg.wmInput ⟨0, 7, -3⟩)).point = (7, -3) := by
  have h := win_delta_passthrough winInit ⟨0, 7, -3⟩ rfl rfl (by decide)
  simpa using h

/-- Claim C5 (code_bug evidence).  A key press while the flag is
already false is a no-op on both paths - but on the X11 path the flag
is never actually cleared (see C1), so a run with two key presses
performs the whole release sequence twice: the trace contains
`XISelectEvents`/`XUngrabPointer`/notice twice, contradicting the
claimed at-most-once disabled notice. -/
theorem keyPress_noop_when_disabled_but_x11_repeats :
    (∀ s : WinState, s.holdMouse = false → winHandleMsg s .wmKeyDown = s) ∧
    (∀ s : X11State, s.rawInput = false → x11Step s .keyPress = s) ∧
    (∀ L : ℤ × ℤ,
      (x11Run (x11Init L) [X11Event.keyPress, X11Event.keyPress]).out =
        [X11Effect.xiSelectEventsEmpty, X11Effect.ungrabPointer, X11Effect.printDisabled,
         X11Effect.xiSelectEventsEmpty, X11Effect.ungrabPointer, X11Effect.printDisabled]) := by
  refine ⟨fun s h => ?_, fun s h => ?_, fun L => rfl⟩
  · simp [winHandleMsg, h]
  · simp [x11Step, h]

/-- Witness for C5 at concrete inputs. -/
theorem keyPress_noop_witness :
    winHandleMsg { winInit with holdMouse := false } WinMsg.wmKeyDown =
      { winInit with holdMouse := false } ∧
    x11Step { x11Init (0, 0) with rawInput := false } X11Event.keyPress =
      { x11Init (0, 0) with rawInput := false } ∧
    (x11Run (x11Init (9, 9)) [X11Event.keyPress, X11Event.keyPress]).out =
      [X11Effect.xiSelectEventsEmpty, X11Effect.ungrabPointer, X11Effect.printDisabled,
       X11Effect.xiSelectEventsEmpty, X11Effect.ungrabPointer, X11Effect.printDisabled] :=
  ⟨keyPress_noop_when_disabled_but_x11_repeats.1 _ rfl,
   keyPress_noop_when_disabled_but_x11_repeats.2.1 _ rfl,
   keyPress_noop_when_disabled_but_x11_repeats.2.2 (9, 9)⟩

/-- Claim C6 counterexample.  A concrete X11 motion event produces the
line `"rawinput -10 -10"`, which is not of the claimed
`"<tag>: <dx> <dy>"` form for either tag: the X11 format string has no
colon after the tag. -/
theorem x11_motion_line_lacks_colon :
    x11Lines (x11Run (x11Init (0, 0)) [X11Event.motionNotify 10 10]) =
      ["rawinput -10 -10"] ∧
    "rawinput -10 -10" ≠ "rawinput: -10 -10" ∧
    "rawinput -10 -10" ≠ "raw input: -10 -10" :=
  ⟨by decide, by decide, by decide⟩

/-- Claim C6 as amended (the X11 motion line has no colon after its
tag): every line either program can print, over any run from its
initial state, is of the platform's motion-line shape
(`"raw input: <dx> <dy>"` on Windows, `"rawinput <dx> <dy>"` on X11)
or is that platform's fixed deactivation notice (`"rawinput disabled"`
on Windows, `"Raw input disabled"` on X11). -/
theorem console_line_forms :
    (∀ (L : ℤ × ℤ) (evs : List X11Event),
        ∀ l ∈ x11Lines (x11Run (x11Init L) evs), x11LineOk l) ∧
    (∀ msgs : List WinMsg, ∀ l ∈ winLines (winRun winInit msgs), winLineOk l) := by
  constructor
  · intro L evs l hl
    refine x11Run_lines_ok evs (x11Init L) (fun l2 hl2 => ?_) l hl
    simp [x11Lines, x11Init] at hl2
  · intro msgs l hl
    refine winRun_lines_ok msgs winInit (fun l2 hl2 => ?_) l hl
    simp [winLines, winInit] at hl2

/-- Witness for the amended C6 at concrete runs. -/
theorem console_line_forms_witness :
    x11LineOk "rawinput -10 -10" ∧ winLineOk "rawinput disabled" :=
  ⟨console_line_forms.1 (0, 0) [X11Event.motionNotify 10 10] _ (by decide),
   console_line_forms.2 [WinMsg.wmKeyDown] _ (by decide)⟩

/-- Claim C7 counterexample.  A `WM_CLOSE` message processed while the
window is still valid leaves `running = true`: line 97
(`running = IsWindow(hwnd)`) overwrites the `FALSE` that the
`WM_CLOSE` arm stored, so a close/quit message does not by itself
terminate the loop. -/
theorem close_message_alone_does_not_stop_loop :
    (winLoopIter winInit (some WinMsg.wmClose) true).running = true := rfl

/-- Claim C7 as amended: the Windows loop's sole exit condition is the
window-validity poll - after any iteration `running` equals exactly
the `IsWindow` result of that iteration, whatever message (close/quit
included) was dispatched - while the X11 `for (;;)` loop's guard is
constantly true, so no state reached on any input makes it exit. -/
theorem loop_exit_is_window_validity_poll :
    (∀ (s : WinState) (m : Option WinMsg) (v : Bool),
        (winLoopIter s m v).running = v) ∧
    (∀ s : X11State, x11LoopGuard s = true) :=
  ⟨fun _ _ _ => rfl, fun _ => rfl⟩

/-- Claim C8 counterexample.  On the Windows path an accepted motion
sample is logged but the whole handler trace contains no
`SetCursorPos` call at all: the Windows loop never re-warps the
pointer (it is confined once by `ClipCursor` before the loop). -/
theorem windows_sample_logged_without_rewarp :
    (winHandleMsg winInit (WinMsg.wmInput ⟨0, 7, -3⟩)).out =
      [WinEffect.printMotion 7 (-3)] ∧
    winWarpCount (winHandleMsg winInit (WinMsg.wmInput ⟨0, 7, -3⟩)).out = 0 :=
  ⟨by decide, by decide⟩

/-- Claim C8 as amended: only the X11 path re-warps the pointer to the
window center `(100, 100)`, once per produced motion sample -
immediately after the print on the `MotionNotify` arm and immediately
before the print on the `XI_RawMotion` arm - while the Windows handler
never changes the number of `SetCursorPos` calls in the trace. -/
theorem rewarp_per_sample_x11_only :
    (∀ (s : X11State) (mx my : ℤ), s.rawInput = true →
        (x11Step s (.motionNotify mx my)).out = s.out ++
          [X11Effect.printMotion (toShort (s.lastMousePoint.1 - mx))
                                 (toShort (s.lastMousePoint.2 - my)),
           X11Effect.warpPointer 100 100]) ∧
    (∀ (s : X11State) (p : XIRawPayload), s.rawInput = true → p.maskLen ≠ 0 →
        (x11Step s (.rawMotion p)).out = s.out ++
          [X11Effect.warpPointer 100 100,
           X11Effect.printMotion (dblToShort (-(if p.mask0 then p.rawValue0 else 0)))
                                 (dblToShort (-(if p.mask1 then p.rawValue1 else 0)))]) ∧
    (∀ (s : WinState) (m : WinMsg),
        winWarpCount (winHandleMsg s m).out = winWarpCount s.out) := by
  refine ⟨fun s mx my h => ?_, fun s p h h2 => ?_, fun s m => ?_⟩
  · simp [x11Step, h, x11Center]
  · rw [x11_rawMotion_out_eq s p h h2]
  · cases m with
    | wmClose => rfl
    | wmQuit => rfl
    | wmInput p =>
        by_cases h : s.holdMouse = false
        · simp [winHandleMsg, h]
        · by_cases h2 : p.dwType ≠ RIM_TYPEMOUSE ∨ (p.lLastX = 0 ∧ p.lLastY = 0)
          · simp [winHandleMsg, h, h2]
          · simp [winHandleMsg, h, h2, winWarpCount, List.countP_append]
    | wmKeyDown =>
        by_cases h : s.holdMouse = false
        · simp [winHandleMsg, h]
        · simp [winHandleMsg, h, winWarpCount, List.countP_append]
    | other => rfl

/-- Witness for the amended C8 at concrete inputs. -/
theorem rewarp_per_sample_witness :
    (x11Step (x11Init (0, 0)) (X11Event.motionNotify 10 10)).out =
      [X11Effect.printMotion (-10) (-10), X11Effect.warpPointer 100 100] ∧
    (x11Step (x11Init (0, 0)) (X11Event.rawMotion ⟨2, true, true, 3, 4⟩)).out =
      [X11Effect.warpPointer 100 100, X11Effect.printMotion (-3) (-4)] ∧
    winWarpCount (winHandleMsg winInit (WinMsg.wmInput ⟨0, 7, -3⟩)).out =
      winWarpCount winInit.out := by
  refine ⟨?_, ?_, rewarp_per_sample_x11_only.2.2 winInit (WinMsg.wmInput ⟨0, 7, -3⟩)⟩
  · rw [rewarp_per_sample_x11_only.1 (x11Init (0, 0)) 10 10 rfl]; decide
  · rw [rewarp_per_sample_x11_only.2.1 (x11Init (0, 0)) ⟨2, true, true, 3, 4⟩ rfl (by decide)]
    decide

/-- Claim C9 (confirmed).  On the `XI_RawMotion` arm, while capture is
enabled and the valuator mask is non-empty, the stored and printed
delta is the negation of the raw values the code reads
(`raw_values[0]`/`raw_values[1]`, each contributing 0 when its mask
bit is unset), truncated through `XPoint`'s `short` fields - the same
sign inversion as the `MotionNotify` arm. -/
theorem x11_rawMotion_negated_truncated :
    ∀ (s : X11State) (p : XIRawPayload), s.rawInput = true → p.maskLen ≠ 0 →
      (x11Step s (.rawMotion p)).out = s.out ++
        [X11Effect.warpPointer 100 100,
         X11Effect.printMotion (dblToShort (-(if p.mask0 then p.rawValue0 else 0)))
                               (dblToShort (-(if p.mask1 then p.rawValue1 else 0)))] ∧
      (x11Step s (.rawMotion p)).point =
        (dblToShort (-(if p.mask0 then p.rawValue0 else 0)),
         dblToShort (-(if p.mask1 then p.rawValue1 else 0))) := by
  intro s p h h2
  rw [x11_rawMotion_out_eq s p h h2]
  exact ⟨rfl, rfl⟩

/-- Witness for C9: raw values (5, 9) with only valuator bit 0 set
yield the printed delta (-5, 0). -/
theorem x11_rawMotion_witness :
    (x11Step (x11Init (0, 0)) (X11Event.rawMotion ⟨1, true, false, 5, 9⟩)).out =
      [X11Effect.warpPointer 100 100, X11Effect.printMotion (-5) 0] ∧
    (x11Step (x11Init (0, 0)) (X11Event.rawMotion ⟨1, true, false, 5, 9⟩)).point =
      (-5, 0) := by
  obtain ⟨h1, h2⟩ :=
    x11_rawMotion_negated_truncated (x11Init (0, 0)) ⟨1, true, false, 5, 9⟩ rfl (by decide)
  constructor
  · rw [h1]; decide
  · rw [h2]; decide

/-- Claim C10 (confirmed).  While `holdMouse` is set, a `WM_INPUT`
payload is a no-op exactly when its device type is not mouse or both
motion components are zero; an accepted payload - including one with
exactly one zero component - appends its motion print. -/
theorem win_zero_filter_conjunctive :
    ∀ (s : WinState) (p : RawMousePayload), s.holdMouse = true →
      ((winHandleMsg s (.wmInput p) = s) ↔
        (p.dwType ≠ RIM_TYPEMOUSE ∨ (p.lLastX = 0 ∧ p.lLastY = 0))) ∧
      (p.dwType = RIM_TYPEMOUSE → ¬(p.lLastX = 0 ∧ p.lLastY = 0) →
        (winHandleMsg s (.wmInput p)).out = s.out ++ [.printMotion p.lLastX p.lLastY]) := by
  intro s p h
  refine ⟨⟨fun heq => ?_, fun hc => ?_⟩, fun h1 h2 => ?_⟩
  · by_contra hc
    rw [not_or, not_not] at hc
    obtain ⟨h1, h2⟩ := hc
    have hlen := congrArg (fun st => st.out.length) heq
    simp [winHandleMsg, h, h1, h2] at hlen
  · simp only [winHandleMsg, h, Bool.true_eq_false, if_false]
    rw [if_pos hc]
  · simp [winHandleMsg, h, h1, h2]

/-- Witness for C10: the payload (mouse, 0, 5) with exactly one zero
component is accepted and printed; the all-zero mouse payload is
dropped. -/
theorem win_zero_filter_witness :
    winHandleMsg winInit (WinMsg.wmInput ⟨0, 0, 5⟩) ≠ winInit ∧
    (winHandleMsg winInit (WinMsg.wmInput ⟨0, 0, 5⟩)).out =
      [WinEffect.printMotion 0 5] ∧
    winHandleMsg winInit (WinMsg.wmInput ⟨RIM_TYPEMOUSE, 0, 0⟩) = winInit := by
  refine ⟨fun heq => ?_, ?_, ?_⟩
  · have hc := (win_zero_filter_conjunctive winInit ⟨0, 0, 5⟩ rfl).1.mp heq
    simp [RIM_TYPEMOUSE] at hc
  · simpa using (win_zero_filter_conjunctive winInit ⟨0, 0, 5⟩ rfl).2 rfl (by decide)
  · exact (win_zero_filter_conjunctive winInit ⟨RIM_TYPEMOUSE, 0, 0⟩ rfl).1.mpr
      (Or.inr ⟨rfl, rfl⟩)
